import Mathlib

/-!
Verification of the fallback-ai priority/fallback scheduling core.

This file shallowly embeds the TypeScript sources `src/priority.ts` and
`src/index.ts` (class `FallbackAI`) in Lean and proves properties of the
embedding.  Mutable `Provider` objects are modelled as immutable records
carrying an `id` that stands for JavaScript reference identity; in-place
field mutation becomes functional record update, and the membership test
`providersToUpdate.includes(provider)` (reference identity) becomes a
test on `id`.  `Date.now()` becomes an explicit clock supplied by the
call environment.  JavaScript truthiness of numbers is modelled
explicitly: a `lastFailureTime` of `0` and a `statusCode` of `0` are
falsy, exactly as in the source.
-/

namespace FallbackSpec

/-- Failure kind recorded on a provider: TS union `'retryable' | 'non-retryable'`. -/
inductive FailureType
  | retryable
  | nonRetryable
deriving DecidableEq, Repr

/-- Embedding of the TS `Provider` record (src/types.ts).  `id` models
reference identity of the mutable object; `apiKey`, `model` and
`parameters` are opaque pass-through and omitted. -/
structure Provider where
  id : Nat
  aiName : String
  priority : Int
  originalPriority : Option Int
  lastFailureTime : Option Nat
  lastFailureType : Option FailureType
deriving DecidableEq, Repr

/-- Embedding of TS `Required<FallbackAIOptions>` (src/types.ts). -/
structure FallbackAIOptions where
  enablePriorityUpdates : Bool
  timeout : Nat
  retryableCodes : List Nat
  retryableErrorTimeout : Nat
  nonRetryableErrorTimeout : Nat
deriving DecidableEq, Repr

/-- Embedding of TS `AIError` (src/types.ts); `errorBody` is opaque and omitted. -/
structure AIError where
  message : String
  provider : String
  statusCode : Option Nat
  retryable : Bool
deriving DecidableEq, Repr

/-- Embedding of TS `AIResponse`: the raw payload (opaque, modelled as a `Nat`)
merged with the `provider` field and the conditionally-spread `errors` field
(`none` models the field being absent). -/
structure AIResponse where
  payload : Nat
  provider : String
  errors : Option (List AIError)
deriving DecidableEq, Repr

/-- `sortProviders` (src/priority.ts line 6): `providers.sort((a, b) => a.priority - b.priority)`.
JS `Array.prototype.sort` is a stable ascending sort by the comparator. -/
def sortProviders (providers : List Provider) : List Provider :=
  providers.mergeSort (fun a b => decide (a.priority ≤ b.priority))

/-- `updateProviderPriorities` (src/priority.ts line 15): each provider in
`providersToUpdate` (membership by reference identity, modelled by `id`)
gets `priority += providers.length`, then the full list is re-sorted. -/
def updateProviderPriorities (providers : List Provider) (toUpdate : List Nat) : List Provider :=
  sortProviders (providers.map (fun p =>
    if toUpdate.contains p.id then { p with priority := p.priority + (providers.length : Int) } else p))

/-- The recovery timeout selected by `checkAndRecoverPriority` for a failure kind. -/
def timeoutFor (options : FallbackAIOptions) : FailureType → Nat
  | FailureType.retryable => options.retryableErrorTimeout
  | FailureType.nonRetryable => options.nonRetryableErrorTimeout

/-- `checkAndRecoverPriority` (src/priority.ts line 27).  The guard
`!provider.lastFailureTime || !provider.lastFailureType` is falsy-sensitive:
a timestamp of `0` behaves like an absent one.  On recovery the source reads
`provider.originalPriority!` (non-null assertion); the `getD 0` arm is the
translation of that assertion and is only exercised when `originalPriority`
is absent. -/
def checkAndRecoverPriority (p : Provider) (options : FallbackAIOptions) (now : Nat) : Provider :=
  match p.lastFailureTime, p.lastFailureType with
  | some t, some ft =>
    if t = 0 then p
    else
      let timeSinceFailure : Int := (now : Int) - (t : Int)
      let shouldRecover : Bool := decide (timeSinceFailure > (timeoutFor options ft : Int))
      if shouldRecover then
        { p with priority := p.originalPriority.getD 0,
                 lastFailureTime := none, lastFailureType := none }
      else p
  | _, _ => p

/-- `recoverPriorityOnSuccess` (src/priority.ts line 53): guard
`provider.lastFailureTime && provider.lastFailureType` (falsy-sensitive),
then reset priority to `originalPriority!` and delete both failure fields. -/
def recoverPriorityOnSuccess (p : Provider) : Provider :=
  match p.lastFailureTime, p.lastFailureType with
  | some t, some _ =>
    if t = 0 then p
    else
      { p with priority := p.originalPriority.getD 0,
               lastFailureTime := none, lastFailureType := none }
  | _, _ => p

/-- Constructor provider normalisation (src/index.ts lines 42-45 and 54):
`originalPriority: provider.originalPriority ?? provider.priority` (nullish
coalescing) followed by `sortProviders`. -/
def initProviders (providers : List Provider) : List Provider :=
  sortProviders (providers.map (fun p =>
    { p with originalPriority := some (p.originalPriority.getD p.priority) }))

/-- `addProvider` (src/index.ts lines 197-200): push the provider as given,
then re-sort.  Note the source does not touch `originalPriority` here. -/
def addProvider (providers : List Provider) (p : Provider) : List Provider :=
  sortProviders (providers ++ [p])

/-- `getProviders` (src/index.ts line 186): returns a shallow copy `[...this.providers]`. -/
def getProviders (providers : List Provider) : List Provider :=
  providers

/-- `createAIError` (src/index.ts lines 168-180).  The classification
`statusCode ? retryableCodes.includes(statusCode) : false` is truthy-sensitive:
an absent status code, and the (unreachable over HTTP) status code `0`, are
classified non-retryable. -/
def createAIError (p : Provider) (options : FallbackAIOptions)
    (statusCode : Option Nat) (msg : String) : AIError :=
  { message := msg
    provider := p.aiName
    statusCode := statusCode
    retryable :=
      match statusCode with
      | none => false
      | some c => if c = 0 then false else options.retryableCodes.contains c }

/-- Failure bookkeeping in the catch-block of `call` (src/index.ts lines 90-91):
`provider.lastFailureTime = Date.now(); provider.lastFailureType = ...`. -/
def recordFailure (p : Provider) (retryable : Bool) (now : Nat) : Provider :=
  { p with lastFailureTime := some now
           lastFailureType := some (if retryable then FailureType.retryable else FailureType.nonRetryable) }

/-- Demotion queueing in the catch-block of `call` (src/index.ts lines 87-89):
`if (!aiError.retryable && this.options.enablePriorityUpdates) providersToUpdate.push(provider)`. -/
def queueForDemotion (options : FallbackAIOptions) (e : AIError) (toUpdate : List Nat) (i : Nat) :
    List Nat :=
  if !e.retryable && options.enablePriorityUpdates then toUpdate ++ [i] else toUpdate

/-- The aggregate error thrown when every provider failed (src/index.ts line 95). -/
def aggregateMessage (errors : List AIError) : String :=
  "All providers failed. Errors: " ++
    String.intercalate ", " (errors.map (fun e => e.provider ++ ": " ++ e.message))

/-- Outcome of one outbound attempt (`makeProviderCall`): a raw response
payload, or a rejection carrying an optional HTTP status code and a message.
Transport failures (network error, timeout abort) have no status code. -/
inductive Outcome
  | success (payload : Nat)
  | failure (statusCode : Option Nat) (msg : String)
deriving DecidableEq, Repr

/-- The external world of one `call` invocation: the attempt outcome for each
provider (by identity; each provider is attempted at most once per call) and
the values of `Date.now()` at step `k` of the loop (once inside
`checkAndRecoverPriority`, once when recording a failure). -/
structure CallEnv where
  outcome : Nat → Outcome
  checkTime : Nat → Nat
  failTime : Nat → Nat

/-- The provider loop of `call` (src/index.ts lines 71-95).  `processed` holds
the already-attempted providers in their original order, `rest` those still to
try, `toUpdate` the queued demotions (by id), `errors` the collected failures,
`k` the step index.  Returns the final registry, the number of outbound
attempts made, and the result.  The array is only re-ordered in the success
branch immediately before returning, so iterating over the entry order is
faithful to the source's live-array iteration. -/
def callLoop (env : CallEnv) (options : FallbackAIOptions) :
    List Provider → List Provider → List Nat → List AIError → Nat →
    List Provider × Nat × Except String AIResponse
  | processed, [], _toUpdate, errors, _k =>
    (processed, 0, Except.error (aggregateMessage errors))
  | processed, p :: rest, toUpdate, errors, k =>
    let p1 := checkAndRecoverPriority p options (env.checkTime k)
    match env.outcome p1.id with
    | Outcome.success payload =>
      let p2 := if p1.originalPriority ≠ some p1.priority then recoverPriorityOnSuccess p1 else p1
      let registry := processed ++ p2 :: rest
      let registry2 := if toUpdate.isEmpty then registry else updateProviderPriorities registry toUpdate
      (registry2, 1,
        Except.ok { payload := payload, provider := p2.aiName,
                    errors := if errors.isEmpty then none else some errors })
    | Outcome.failure statusCode msg =>
      let aiError := createAIError p1 options statusCode msg
      let p2 := recordFailure p1 aiError.retryable (env.failTime k)
      let r := callLoop env options (processed ++ [p2]) rest
        (queueForDemotion options aiError toUpdate p1.id) (errors ++ [aiError]) (k + 1)
      (r.1, r.2.1 + 1, r.2.2)

/-- `call` (src/index.ts line 63): prompt validation, then the provider loop. -/
def call (env : CallEnv) (options : FallbackAIOptions) (providers : List Provider)
    (prompt : String) : List Provider × Nat × Except String AIResponse :=
  if prompt = "" then (providers, 0, Except.error "Prompt must be a non-empty string")
  else callLoop env options [] providers [] [] 0

/-- The registry invariant claimed by the spec: ascending order by `priority`. -/
def sortedByPriority (l : List Provider) : Prop :=
  l.Pairwise (fun a b => a.priority ≤ b.priority)

/-- No provider marked for demotion appears before an unmarked one. -/
def demotedAfterNonDemoted (l : List Provider) (toDemote : List Nat) : Prop :=
  l.Pairwise (fun a b => ¬(toDemote.contains a.id = true ∧ ¬ toDemote.contains b.id = true))

/-- The both-present-or-both-absent invariant on the failure-bookkeeping fields. -/
def failureConsistent (p : Provider) : Prop :=
  p.lastFailureTime.isSome = p.lastFailureType.isSome

instance (l : List Provider) : Decidable (sortedByPriority l) :=
  inferInstanceAs (Decidable (l.Pairwise (fun (a b : Provider) => a.priority ≤ b.priority)))

instance (l : List Provider) (toDemote : List Nat) : Decidable (demotedAfterNonDemoted l toDemote) :=
  inferInstanceAs (Decidable (l.Pairwise
    (fun (a b : Provider) => ¬(toDemote.contains a.id = true ∧ ¬ toDemote.contains b.id = true))))

instance (p : Provider) : Decidable (failureConsistent p) :=
  inferInstanceAs (Decidable (p.lastFailureTime.isSome = p.lastFailureType.isSome))

/-- The provider states produced by a `call` in which every attempt fails with
the status code `sc` and message `msg` associated to the provider's identity:
each provider in order undergoes the lazy recovery check and then has its
failure recorded; nothing else is touched. -/
def allFailState (env : CallEnv) (options : FallbackAIOptions) (sc : Nat → Option Nat)
    (msg : Nat → String) : Nat → List Provider → List Provider
  | _, [] => []
  | k, p :: rest =>
    let p1 := checkAndRecoverPriority p options (env.checkTime k)
    recordFailure p1 (createAIError p1 options (sc p.id) (msg p.id)).retryable (env.failTime k) ::
      allFailState env options sc msg (k + 1) rest

/-- The error list collected by a `call` in which every attempt fails. -/
def allFailErrors (options : FallbackAIOptions) (sc : Nat → Option Nat) (msg : Nat → String)
    (l : List Provider) : List AIError :=
  l.map (fun p => createAIError p options (sc p.id) (msg p.id))

/-! ### Concrete fixtures used in counterexamples and witnesses -/

/-- The default option values from the `FallbackAI` constructor. -/
def optsA : FallbackAIOptions :=
  { enablePriorityUpdates := true, timeout := 30000, retryableCodes := [429, 500],
    retryableErrorTimeout := 300000, nonRetryableErrorTimeout := 1800000 }

/-- A healthy provider at priority 2. -/
def pA : Provider :=
  { id := 0, aiName := "groq", priority := 2, originalPriority := some 2,
    lastFailureTime := none, lastFailureType := none }

/-- A provider demoted to priority 5 after a non-retryable failure at time 1,
with original priority 1. -/
def pB : Provider :=
  { id := 1, aiName := "gemini", priority := 5, originalPriority := some 1,
    lastFailureTime := some 1, lastFailureType := some FailureType.nonRetryable }

/-- Environment in which provider 0 fails with a retryable 429 and every other
provider succeeds, with the clock far past every recovery timeout. -/
def envC1 : CallEnv :=
  { outcome := fun i => if i = 0 then Outcome.failure (some 429) "rate limited" else Outcome.success 7,
    checkTime := fun _ => 2000000, failTime := fun _ => 2000000 }

/-- A healthy provider at priority 1. -/
def pA2 : Provider :=
  { id := 0, aiName := "groq", priority := 1, originalPriority := some 1,
    lastFailureTime := none, lastFailureType := none }

/-- A healthy provider at priority 2. -/
def pB2 : Provider :=
  { id := 1, aiName := "gemini", priority := 2, originalPriority := some 2,
    lastFailureTime := none, lastFailureType := none }

/-- Environment in which every provider fails with a non-retryable 400. -/
def envC2 : CallEnv :=
  { outcome := fun _ => Outcome.failure (some 400) "bad request",
    checkTime := fun _ => 10, failTime := fun _ => 10 }

/-- The status-code map of `envC2`. -/
def scC2 : Nat → Option Nat := fun _ => some 400

/-- The message map of `envC2`. -/
def msgC2 : Nat → String := fun _ => "bad request"

/-- A provider as normalised by the constructor (originalPriority set). -/
def pInit : Provider :=
  { id := 0, aiName := "groq", priority := 1, originalPriority := none,
    lastFailureTime := none, lastFailureType := none }

/-- A provider handed to `addProvider` without an `originalPriority`. -/
def pNew : Provider :=
  { id := 1, aiName := "mistral", priority := 2, originalPriority := none,
    lastFailureTime := none, lastFailureType := none }

/-- A to-be-demoted provider whose priority is far below its peer's. -/
def dLow : Provider :=
  { id := 0, aiName := "groq", priority := 0, originalPriority := some 0,
    lastFailureTime := none, lastFailureType := none }

/-- A not-demoted provider whose priority exceeds the demotion penalty. -/
def pHigh : Provider :=
  { id := 1, aiName := "gemini", priority := 10, originalPriority := some 10,
    lastFailureTime := none, lastFailureType := none }

/-- Environment in which every provider succeeds with payload 7. -/
def envW : CallEnv :=
  { outcome := fun _ => Outcome.success 7,
    checkTime := fun _ => 200, failTime := fun _ => 200 }

/-- A provider at its original priority that still carries failure
bookkeeping from a recent retryable failure (recorded at time 100). -/
def pC10 : Provider :=
  { id := 0, aiName := "groq", priority := 1, originalPriority := some 1,
    lastFailureTime := some 100, lastFailureType := some FailureType.retryable }

/-- A retryable AIError as produced for a 429 response. -/
def eRetry : AIError :=
  { message := "rate limited", provider := "groq", statusCode := some 429, retryable := true }

/-! ### Shared lemmas about the scheduler operations -/

theorem sortProviders_perm (l : List Provider) : (sortProviders l).Perm l :=
  List.mergeSort_perm l _

theorem sortProviders_of_sorted (l : List Provider) (h : sortedByPriority l) :
    sortProviders l = l :=
  List.mergeSort_of_sorted (h.imp (fun hab => decide_eq_true hab))

theorem sortProviders_sorted (l : List Provider) : sortedByPriority (sortProviders l) := by
  unfold sortedByPriority sortProviders
  exact List.Pairwise.imp (fun hab => by simpa using hab)
    (List.sorted_mergeSort
      (fun a b c hab hbc => by
        simp only [decide_eq_true_eq] at *
        exact le_trans hab hbc)
      (fun a b => by
        simp only [Bool.or_eq_true, decide_eq_true_eq]
        exact le_total a.priority b.priority)
      l)

theorem checkAndRecoverPriority_id (p : Provider) (o : FallbackAIOptions) (n : Nat) :
    (checkAndRecoverPriority p o n).id = p.id := by
  unfold checkAndRecoverPriority
  split
  · split
    · rfl
    · dsimp only
      split <;> rfl
  · rfl

theorem checkAndRecoverPriority_aiName (p : Provider) (o : FallbackAIOptions) (n : Nat) :
    (checkAndRecoverPriority p o n).aiName = p.aiName := by
  unfold checkAndRecoverPriority
  split
  · split
    · rfl
    · dsimp only
      split <;> rfl
  · rfl

theorem recoverPriorityOnSuccess_aiName (p : Provider) :
    (recoverPriorityOnSuccess p).aiName = p.aiName := by
  unfold recoverPriorityOnSuccess
  split
  · split <;> rfl
  · rfl

theorem createAIError_checkAndRecover (p : Provider) (o o2 : FallbackAIOptions) (n : Nat)
    (sc : Option Nat) (m : String) :
    createAIError (checkAndRecoverPriority p o n) o2 sc m = createAIError p o2 sc m := by
  unfold createAIError
  rw [checkAndRecoverPriority_aiName]

theorem checkAndRecover_consistent (p : Provider) (o : FallbackAIOptions) (n : Nat)
    (h : failureConsistent p) : failureConsistent (checkAndRecoverPriority p o n) := by
  unfold checkAndRecoverPriority
  split
  · split
    · exact h
    · dsimp only
      split
      · exact rfl
      · exact h
  · exact h

theorem recover_consistent (p : Provider) (h : failureConsistent p) :
    failureConsistent (recoverPriorityOnSuccess p) := by
  unfold recoverPriorityOnSuccess
  split
  · split
    · exact h
    · exact rfl
  · exact h

theorem recordFailure_consistent (p : Provider) (r : Bool) (n : Nat) :
    failureConsistent (recordFailure p r n) :=
  rfl

theorem updateProviderPriorities_mem (l : List Provider) (t : List Nat) (q : Provider)
    (hq : q ∈ updateProviderPriorities l t) :
    ∃ p ∈ l, (if t.contains p.id then { p with priority := p.priority + (l.length : Int) } else p) = q := by
  unfold updateProviderPriorities sortProviders at hq
  rw [List.mem_mergeSort, List.mem_map] at hq
  exact hq

theorem updateProviderPriorities_consistent (l : List Provider) (t : List Nat)
    (h : ∀ p ∈ l, failureConsistent p) : ∀ q ∈ updateProviderPriorities l t, failureConsistent q := by
  intro q hq
  obtain ⟨p, hp, hpe⟩ := updateProviderPriorities_mem l t q hq
  subst hpe
  split
  · exact h p hp
  · exact h p hp

theorem recoverPriorityOnSuccess_id (p : Provider) :
    (recoverPriorityOnSuccess p).id = p.id := by
  unfold recoverPriorityOnSuccess
  split
  · split <;> rfl
  · rfl

theorem callLoop_allfail (env : CallEnv) (opts : FallbackAIOptions) (sc : Nat → Option Nat)
    (msg : Nat → String) (rest : List Provider) :
    ∀ (processed : List Provider) (toUpdate : List Nat) (errors : List AIError) (k : Nat),
      (∀ p ∈ rest, env.outcome p.id = Outcome.failure (sc p.id) (msg p.id)) →
      callLoop env opts processed rest toUpdate errors k =
        (processed ++ allFailState env opts sc msg k rest, rest.length,
         Except.error (aggregateMessage (errors ++ allFailErrors opts sc msg rest))) := by
  induction rest with
  | nil =>
    intro processed toUpdate errors k _
    simp [callLoop, allFailState, allFailErrors]
  | cons p rest ih =>
    intro processed toUpdate errors k hfail
    have hid : (checkAndRecoverPriority p opts (env.checkTime k)).id = p.id :=
      checkAndRecoverPriority_id p opts (env.checkTime k)
    have hout : env.outcome p.id = Outcome.failure (sc p.id) (msg p.id) := hfail p (by simp)
    have hrest : ∀ q ∈ rest, env.outcome q.id = Outcome.failure (sc q.id) (msg q.id) :=
      fun q hq => hfail q (by simp [hq])
    simp only [callLoop, hid, hout]
    rw [ih (processed ++ [_]) _ _ (k + 1) hrest]
    simp [allFailState, allFailErrors, createAIError_checkAndRecover, List.append_assoc]

theorem callLoop_consistent (env : CallEnv) (opts : FallbackAIOptions) (rest : List Provider) :
    ∀ (processed : List Provider) (toUpdate : List Nat) (errors : List AIError) (k : Nat),
      (∀ p ∈ processed, failureConsistent p) → (∀ p ∈ rest, failureConsistent p) →
      ∀ q ∈ (callLoop env opts processed rest toUpdate errors k).1, failureConsistent q := by
  induction rest with
  | nil =>
    intro processed _ _ _ hproc _ q hq
    simp only [callLoop] at hq
    exact hproc q hq
  | cons p rest ih =>
    intro processed toUpdate errors k hproc hrest q hq
    have hp1 : failureConsistent (checkAndRecoverPriority p opts (env.checkTime k)) :=
      checkAndRecover_consistent p opts (env.checkTime k) (hrest p (by simp))
    cases h2 : env.outcome (checkAndRecoverPriority p opts (env.checkTime k)).id with
    | success payload =>
      simp only [callLoop, h2] at hq
      have hall : ∀ x ∈ processed ++
          (if (checkAndRecoverPriority p opts (env.checkTime k)).originalPriority ≠
              some (checkAndRecoverPriority p opts (env.checkTime k)).priority then
            recoverPriorityOnSuccess (checkAndRecoverPriority p opts (env.checkTime k))
          else checkAndRecoverPriority p opts (env.checkTime k)) :: rest, failureConsistent x := by
        intro x hx
        rcases List.mem_append.mp hx with hx | hx
        · exact hproc x hx
        · rcases List.mem_cons.mp hx with hx | hx
          · subst hx
            split
            · exact recover_consistent _ hp1
            · exact hp1
          · exact hrest x (by simp [hx])
      by_cases he : toUpdate.isEmpty
      · simp only [he, if_true] at hq
        exact hall q hq
      · simp only [he, if_false] at hq
        exact updateProviderPriorities_consistent _ _ hall q hq
    | failure sc m =>
      simp only [callLoop, h2] at hq
      refine ih (processed ++ [_]) _ _ (k + 1) ?_ (fun x hx => hrest x (by simp [hx])) q hq
      intro x hx
      rcases List.mem_append.mp hx with hx | hx
      · exact hproc x hx
      · rcases List.mem_cons.mp hx with hx | hx
        · subst hx
          exact recordFailure_consistent _ _ _
        · simp at hx

theorem callLoop_ok_attempts (env : CallEnv) (opts : FallbackAIOptions)
    (rest processed : List Provider) (toUpdate : List Nat) (errors : List AIError) (k : Nat)
    (r : AIResponse)
    (h : (callLoop env opts processed rest toUpdate errors k).2.2 = Except.ok r) :
    1 ≤ (callLoop env opts processed rest toUpdate errors k).2.1 := by
  cases rest with
  | nil => simp [callLoop] at h
  | cons p rest =>
    cases h2 : env.outcome (checkAndRecoverPriority p opts (env.checkTime k)).id with
    | success payload => simp [callLoop, h2]
    | failure sc m => simp [callLoop, h2]

theorem callLoop_ok (env : CallEnv) (opts : FallbackAIOptions) (rest : List Provider) :
    ∀ (processed : List Provider) (toUpdate : List Nat) (errors : List AIError) (k : Nat)
      (r : AIResponse),
      (callLoop env opts processed rest toUpdate errors k).2.2 = Except.ok r →
      (∃ q ∈ rest, env.outcome q.id = Outcome.success r.payload ∧ r.provider = q.aiName) ∧
      (r.errors = none ↔ (errors = [] ∧ (callLoop env opts processed rest toUpdate errors k).2.1 = 1)) := by
  induction rest with
  | nil =>
    intro processed toUpdate errors k r h
    simp [callLoop] at h
  | cons p rest ih =>
    intro processed toUpdate errors k r h
    cases h2 : env.outcome (checkAndRecoverPriority p opts (env.checkTime k)).id with
    | success payload =>
      simp only [callLoop, h2] at h ⊢
      have hr : AIResponse.mk payload
          (if (checkAndRecoverPriority p opts (env.checkTime k)).originalPriority ≠
              some (checkAndRecoverPriority p opts (env.checkTime k)).priority then
            recoverPriorityOnSuccess (checkAndRecoverPriority p opts (env.checkTime k))
          else checkAndRecoverPriority p opts (env.checkTime k)).aiName
          (if errors.isEmpty then none else some errors) = r := by
        exact Except.ok.inj h
      constructor
      · refine ⟨p, by simp, ?_, ?_⟩
        · rw [checkAndRecoverPriority_id] at h2
          rw [h2]
          rw [← hr]
        · rw [← hr]
          split
          · rw [recoverPriorityOnSuccess_aiName, checkAndRecoverPriority_aiName]
          · rw [checkAndRecoverPriority_aiName]
      · rw [← hr]
        by_cases he : errors.isEmpty
        · simp [he, List.isEmpty_iff.mp he]
        · simp only [he, if_false]
          simp [List.isEmpty_iff] at he
          simp [he]
    | failure sc m =>
      simp only [callLoop, h2] at h ⊢
      obtain ⟨⟨q, hq, hqo, hqn⟩, hiff⟩ := ih (processed ++ [_]) _ _ (k + 1) r h
      have hatt := callLoop_ok_attempts env opts rest (processed ++ [_]) _ _ (k + 1) r h
      constructor
      · exact ⟨q, by simp [hq], hqo, hqn⟩
      · constructor
        · intro hnone
          rw [hiff] at hnone
          simp at hnone
        · intro ⟨_, hone⟩
          omega

theorem updateProviderPriorities_sorted (l : List Provider) (t : List Nat) :
    sortedByPriority (updateProviderPriorities l t) :=
  sortProviders_sorted _

theorem demote_separation (providers : List Provider) (toDemote : List Nat)
    (hsep : ∀ d ∈ providers, ∀ p ∈ providers, toDemote.contains d.id = true →
      toDemote.contains p.id = false →
      p.priority < d.priority + (providers.length : Int)) :
    demotedAfterNonDemoted (updateProviderPriorities providers toDemote) toDemote := by
  have hkey : ∀ a ∈ updateProviderPriorities providers toDemote,
      ∀ b ∈ updateProviderPriorities providers toDemote,
      toDemote.contains a.id = true → toDemote.contains b.id = false →
      b.priority < a.priority := by
    intro a ha b hb hda hdb
    obtain ⟨pa, hpa, hpae⟩ := updateProviderPriorities_mem providers toDemote a ha
    obtain ⟨pb, hpb, hpbe⟩ := updateProviderPriorities_mem providers toDemote b hb
    have haid : a.id = pa.id := by
      rw [← hpae]; split <;> rfl
    have hbid : b.id = pb.id := by
      rw [← hpbe]; split <;> rfl
    rw [haid] at hda
    rw [hbid] at hdb
    have hav : a.priority = pa.priority + (providers.length : Int) := by
      rw [← hpae, if_pos hda]
    have hbv : b.priority = pb.priority := by
      rw [← hpbe, if_neg (by rw [hdb]; simp)]
    rw [hav, hbv]
    exact hsep pa hpa pb hpb hda hdb
  have hsorted : (updateProviderPriorities providers toDemote).Pairwise
      (fun (a b : Provider) => a.priority ≤ b.priority) := sortProviders_sorted _
  exact hsorted.imp_of_mem (fun {a b} ha hb hle => by
    rintro ⟨hda, hdb⟩
    rw [Bool.not_eq_true] at hdb
    have := hkey a ha b hb hda hdb
    omega)

theorem checkAndRecover_characterization (p : Provider) (opts : FallbackAIOptions) (now t : Nat)
    (ft : FailureType) (o : Int) :
    ((p.lastFailureTime = none ∨ p.lastFailureType = none) →
      checkAndRecoverPriority p opts now = p) ∧
    (p.lastFailureTime = some t → 0 < t → p.lastFailureType = some ft →
      p.originalPriority = some o →
      checkAndRecoverPriority p opts now =
        (if ((now : Int) - (t : Int) > (timeoutFor opts ft : Int)) then
          { p with priority := o, lastFailureTime := none, lastFailureType := none }
        else p)) := by
  constructor
  · intro h
    unfold checkAndRecoverPriority
    rcases h with h | h
    · rw [h]
    · rw [h]
      rcases htime : p.lastFailureTime with _ | t2 <;> rfl
  · intro ht h0 hft ho
    unfold checkAndRecoverPriority
    rw [ht, hft]
    dsimp only
    rw [if_neg (by omega)]
    rw [ho]
    by_cases hrec : ((now : Int) - (t : Int) > (timeoutFor opts ft : Int))
    · rw [if_pos (by simpa using hrec), if_pos hrec]
      rfl
    · rw [if_neg (by simpa using hrec), if_neg hrec]

/-! ### The claims -/

/-- Claim C1, counterexample: the claim that the registry is sorted ascending by
priority after any Scheduler operation completes — in particular after
`checkAndRecoverPriority` resets a demoted provider's priority back to its
originalPriority — is false.  In this concrete call, provider 0 fails with a
retryable 429, the lazy recovery check then resets the demoted provider 1 from
priority 5 back to 1 without re-sorting, and `getProviders` observes the
unsorted list [priority 2, priority 1]. -/
theorem C1_registry_order_counterexample :
    ¬ sortedByPriority (getProviders (call envC1 optsA [pA, pB] "hi").1) := by decide

/-- Claim C1, amended: the operations that end in a sort — `sortProviders`,
construction, `addProvider`, and `updateProviderPriorities` — do leave the
registry sorted ascending by priority; but `checkAndRecoverPriority` (and
`recoverPriorityOnSuccess`) mutate a single provider's priority without
re-sorting, so a call in which lazy recovery fires can leave the registry
unsorted (see the counterexample). -/
theorem C1_registry_order_amended (l : List Provider) (p : Provider) (t : List Nat) :
    sortedByPriority (sortProviders l) ∧ sortedByPriority (initProviders l) ∧
    sortedByPriority (addProvider l p) ∧ sortedByPriority (updateProviderPriorities l t) :=
  ⟨sortProviders_sorted l, sortProviders_sorted _, sortProviders_sorted _, sortProviders_sorted _⟩

/-- Claim C2, counterexample: in a call where both providers fail with a
non-retryable 400 and priority updates are enabled, the aggregate error is
thrown but the queued demotions are NOT applied first: provider 0 keeps
priority 1 instead of having it increased by the provider count to 3. -/
theorem C2_allfail_counterexample :
    (call envC2 optsA [pA2, pB2] "hi").2.2 =
      Except.error "All providers failed. Errors: groq: bad request, gemini: bad request" ∧
    (call envC2 optsA [pA2, pB2] "hi").1.map Provider.priority = [1, 2] := by
  constructor
  · rfl
  · decide

/-- Claim C2, amended: when every provider fails, the call throws the aggregate
error enumerating, in attempt order, every provider's identity and failure
message, but the queued demotions are discarded, not applied: each provider's
final state is exactly the result of the lazy recovery check followed by
failure recording (`allFailState`), with no `updateProviderPriorities` call. -/
theorem C2_allfail_amended (env : CallEnv) (opts : FallbackAIOptions)
    (providers : List Provider) (prompt : String) (sc : Nat → Option Nat) (msg : Nat → String)
    (hp : prompt ≠ "")
    (hfail : ∀ p ∈ providers, env.outcome p.id = Outcome.failure (sc p.id) (msg p.id)) :
    call env opts providers prompt =
      (allFailState env opts sc msg 0 providers, providers.length,
       Except.error (aggregateMessage (allFailErrors opts sc msg providers))) := by
  unfold call
  rw [if_neg hp]
  exact callLoop_allfail env opts sc msg providers [] [] [] 0 hfail

/-- Claim C2, witness for the amended theorem at a concrete two-provider
all-fail call. -/
theorem C2_allfail_witness :
    call envC2 optsA [pA2, pB2] "hi" =
      (allFailState envC2 optsA scC2 msgC2 0 [pA2, pB2], 2,
       Except.error (aggregateMessage (allFailErrors optsA scC2 msgC2 [pA2, pB2]))) :=
  C2_allfail_amended envC2 optsA [pA2, pB2] "hi" scC2 msgC2 (by decide) (by decide)

/-- Claim C3: `addProvider` pushes the provider exactly as given and re-sorts;
contrary to the spec it never assigns `originalPriority`, so a provider added
with `originalPriority` unset stays unset in the registry — even though the
recovery paths dereference `provider.originalPriority!` with a non-null
assertion.  Here the constructor-normalised provider has `some 1` while the
freshly added one still has `none`. -/
theorem C3_addProvider_code_bug :
    (addProvider (initProviders [pInit]) pNew).map Provider.originalPriority = [some 1, none] := by
  have h1 : initProviders [pInit] = [{ pInit with originalPriority := some 1 }] := by
    unfold initProviders
    rw [sortProviders_of_sorted _ (by decide)]
    rfl
  unfold addProvider
  rw [h1, sortProviders_of_sorted _ (by decide)]
  rfl

/-- Claim C4, counterexample: demotion does not order every demoted provider
after every non-demoted one for arbitrary integer priority spreads.  With
providers at priorities 0 and 10 and count 2, demoting the first yields
priority 2, which still sorts before the non-demoted provider at 10. -/
theorem C4_demote_counterexample :
    ¬ demotedAfterNonDemoted (updateProviderPriorities [dLow, pHigh] [0]) [0] := by
  unfold updateProviderPriorities
  rw [sortProviders_of_sorted _ (by decide)]
  decide

/-- Claim C4, amended: `updateProviderPriorities` adds the total provider count
to each demoted provider's priority and re-sorts; every demoted provider is
ordered after every non-demoted one provided each non-demoted prior priority is
strictly less than each demoted prior priority plus the count (which holds for
the intended small-positive-integer priorities, e.g. distinct values in 1..n,
but not for arbitrary spreads — see the counterexample). -/
theorem C4_demote_amended (providers : List Provider) (toDemote : List Nat)
    (hsep : ∀ d ∈ providers, ∀ p ∈ providers, toDemote.contains d.id = true →
      toDemote.contains p.id = false → p.priority < d.priority + (providers.length : Int)) :
    sortedByPriority (updateProviderPriorities providers toDemote) ∧
    (updateProviderPriorities providers toDemote).Perm
      (providers.map (fun p => if toDemote.contains p.id then
        { p with priority := p.priority + (providers.length : Int) } else p)) ∧
    demotedAfterNonDemoted (updateProviderPriorities providers toDemote) toDemote :=
  ⟨sortProviders_sorted _, sortProviders_perm _, demote_separation providers toDemote hsep⟩

/-- Claim C4, witness for the amended theorem: with priorities 1 and 2 and
count 2 the separation hypothesis holds and the demoted provider sorts last. -/
theorem C4_demote_witness :
    demotedAfterNonDemoted (updateProviderPriorities [pA2, pB2] [0]) [0] :=
  (C4_demote_amended [pA2, pB2] [0] (by decide)).2.2

/-- Claim C5: `checkAndRecoverPriority` is a no-op when no failure is recorded;
for a recorded failure (with a positive timestamp, as `Date.now()` always is)
it resets priority to `originalPriority` and clears both failure fields exactly
when the elapsed time strictly exceeds the timeout selected by the failure
kind, and otherwise leaves the provider entirely unchanged. -/
theorem C5_checkAndRecover_spec (p : Provider) (opts : FallbackAIOptions) (now t : Nat)
    (ft : FailureType) (o : Int) :
    ((p.lastFailureTime = none ∨ p.lastFailureType = none) →
      checkAndRecoverPriority p opts now = p) ∧
    (p.lastFailureTime = some t → 0 < t → p.lastFailureType = some ft →
      p.originalPriority = some o →
      checkAndRecoverPriority p opts now =
        (if ((now : Int) - (t : Int) > (timeoutFor opts ft : Int)) then
          { p with priority := o, lastFailureTime := none, lastFailureType := none }
        else p)) :=
  checkAndRecover_characterization p opts now t ft o

/-- Claim C5, witness: the demoted provider `pB` (non-retryable failure at time
1, original priority 1) recovers at time 2000000 under the default timeouts. -/
theorem C5_checkAndRecover_witness :
    checkAndRecoverPriority pB optsA 2000000 =
      { pB with priority := 1, lastFailureTime := none, lastFailureType := none } := by
  rw [(C5_checkAndRecover_spec pB optsA 2000000 1 FailureType.nonRetryable 1).2
    rfl (by decide) rfl rfl]
  rw [if_pos (by decide)]

/-- Claim C6: a provider-call failure is classified retryable iff it carries a
(truthy) status code that is a member of the configured retryable-codes set; a
failure with no status code is classified non-retryable. -/
theorem C6_retryable_classification (p : Provider) (opts : FallbackAIOptions) (m : String)
    (c : Nat) (hc : c ≠ 0) :
    ((createAIError p opts (some c) m).retryable = true ↔ c ∈ opts.retryableCodes) ∧
    (createAIError p opts none m).retryable = false := by
  unfold createAIError
  refine ⟨?_, rfl⟩
  dsimp only
  rw [if_neg hc]
  simp

/-- Claim C6, witness at status code 429 with the default retryable codes. -/
theorem C6_retryable_witness :
    (createAIError pA optsA (some 429) "rate limited").retryable = true :=
  ((C6_retryable_classification pA optsA "rate limited" 429 (by decide)).1).mpr (by decide)

/-- Claim C7: the failure handling in the catch-block writes only the failure
bookkeeping fields — `recordFailure` preserves priority, originalPriority, id
and aiName — and a provider is queued for demotion exactly when its error is
non-retryable and priority updates are enabled; in particular a retryable
failure never queues the provider. -/
theorem C7_failure_frame (opts : FallbackAIOptions) (p : Provider) (e : AIError)
    (toUpdate : List Nat) (i now : Nat) (r : Bool) :
    ((recordFailure p r now).priority = p.priority ∧
     (recordFailure p r now).originalPriority = p.originalPriority ∧
     (recordFailure p r now).id = p.id ∧
     (recordFailure p r now).aiName = p.aiName) ∧
    (e.retryable = true → queueForDemotion opts e toUpdate i = toUpdate) ∧
    (queueForDemotion opts e toUpdate i = toUpdate ++ [i] ↔
      (e.retryable = false ∧ opts.enablePriorityUpdates = true)) := by
  refine ⟨⟨rfl, rfl, rfl, rfl⟩, ?_, ?_⟩
  · intro h
    unfold queueForDemotion
    rw [h]
    rfl
  · unfold queueForDemotion
    by_cases h : (!e.retryable && opts.enablePriorityUpdates) = true
    · rw [if_pos h]
      simp only [Bool.and_eq_true, Bool.not_eq_true'] at h
      simp [h]
    · rw [if_neg h]
      simp only [Bool.and_eq_true, Bool.not_eq_true'] at h
      constructor
      · intro habs
        have hlen : toUpdate.length = (toUpdate ++ [i]).length := by rw [← habs]
        simp at hlen
      · rintro ⟨h1, h2⟩
        exact absurd ⟨h1, h2⟩ h

/-- Claim C7, witness: a retryable 429 error leaves the demotion queue
unchanged. -/
theorem C7_failure_frame_witness :
    queueForDemotion optsA eRetry [] 0 = [] :=
  (C7_failure_frame optsA pA eRetry [] 0 5 true).2.1 rfl

/-- Claim C8: a successful `call` returns the succeeding provider's raw
payload annotated with that provider's name, with the `errors` field present
iff at least one earlier provider failed (equivalently, iff more than one
outbound attempt was made); when the first provider succeeds, exactly one
outbound attempt is made and the result carries no `errors` field. -/
theorem C8_success_result (env : CallEnv) (opts : FallbackAIOptions) (prompt : String)
    (hp : prompt ≠ "") :
    (∀ (providers : List Provider) (r : AIResponse),
      (call env opts providers prompt).2.2 = Except.ok r →
      (∃ q ∈ providers, env.outcome q.id = Outcome.success r.payload ∧ r.provider = q.aiName) ∧
      ((call env opts providers prompt).2.1 = 1 ↔ r.errors = none)) ∧
    (∀ (p : Provider) (rest : List Provider) (payload : Nat),
      env.outcome p.id = Outcome.success payload →
      (call env opts (p :: rest) prompt).2.1 = 1 ∧
      (call env opts (p :: rest) prompt).2.2 =
        Except.ok { payload := payload, provider := p.aiName, errors := none }) := by
  constructor
  · intro providers r h
    unfold call at h ⊢
    rw [if_neg hp] at h ⊢
    obtain ⟨hex, hiff⟩ := callLoop_ok env opts providers [] [] [] 0 r h
    refine ⟨hex, ?_⟩
    rw [hiff]
    simp
  · intro p rest payload hsucc
    have hid := checkAndRecoverPriority_id p opts (env.checkTime 0)
    have hname : (if (checkAndRecoverPriority p opts (env.checkTime 0)).originalPriority ≠
        some (checkAndRecoverPriority p opts (env.checkTime 0)).priority then
        recoverPriorityOnSuccess (checkAndRecoverPriority p opts (env.checkTime 0))
      else checkAndRecoverPriority p opts (env.checkTime 0)).aiName = p.aiName := by
      split
      · rw [recoverPriorityOnSuccess_aiName, checkAndRecoverPriority_aiName]
      · rw [checkAndRecoverPriority_aiName]
    unfold call
    rw [if_neg hp]
    simp only [callLoop]
    rw [hid, hsucc]
    constructor
    · rfl
    · simp only [hname]
      rfl

/-- Claim C8, witness: a single healthy provider succeeding on the first
attempt yields its payload, its name, no errors field, and one attempt. -/
theorem C8_success_result_witness :
    (call envW optsA [pA2] "hi").2.1 = 1 ∧
    (call envW optsA [pA2] "hi").2.2 =
      Except.ok { payload := 7, provider := "groq", errors := none } :=
  (C8_success_result envW optsA "hi" (by decide)).2 pA2 [] 7 rfl

/-- Claim C9: `lastFailureTime` and `lastFailureType` are both present or both
absent: the lazy recovery check, success recovery and failure recording all
preserve (or establish) the invariant, and a full `call` preserves it for
every provider in the registry. -/
theorem C9_failure_fields_invariant :
    (∀ (p : Provider) (opts : FallbackAIOptions) (now : Nat),
      failureConsistent p → failureConsistent (checkAndRecoverPriority p opts now)) ∧
    (∀ p : Provider, failureConsistent p → failureConsistent (recoverPriorityOnSuccess p)) ∧
    (∀ (p : Provider) (r : Bool) (now : Nat), failureConsistent (recordFailure p r now)) ∧
    (∀ (env : CallEnv) (opts : FallbackAIOptions) (providers : List Provider) (prompt : String),
      (∀ p ∈ providers, failureConsistent p) →
      ∀ q ∈ (call env opts providers prompt).1, failureConsistent q) := by
  refine ⟨checkAndRecover_consistent, recover_consistent, recordFailure_consistent, ?_⟩
  intro env opts providers prompt hall q hq
  unfold call at hq
  by_cases hp : prompt = ""
  · rw [if_pos hp] at hq
    exact hall q hq
  · rw [if_neg hp] at hq
    exact callLoop_consistent env opts providers [] [] [] 0 (by simp) hall q hq

/-- Claim C9, witness at concrete providers with and without failure state. -/
theorem C9_failure_fields_witness :
    failureConsistent (checkAndRecoverPriority pB optsA 2000000) ∧
    failureConsistent (recoverPriorityOnSuccess pB) ∧
    failureConsistent (recordFailure pA true 5) :=
  ⟨C9_failure_fields_invariant.1 pB optsA 2000000 (by decide),
   C9_failure_fields_invariant.2.1 pB (by decide),
   C9_failure_fields_invariant.2.2.1 pA true 5⟩

/-- Claim C10: a provider at its original priority that still carries failure
bookkeeping (the state left by a retryable failure) keeps both failure fields
across a later successful call — success recovery runs only when priority
differs from originalPriority — as long as the lazy timeout check has not yet
fired; the final registry is completely unchanged. -/
theorem C10_success_keeps_failure_fields (env : CallEnv) (opts : FallbackAIOptions)
    (p : Provider) (rest : List Provider) (prompt : String) (payload : Nat) (t : Nat)
    (ft : FailureType)
    (hp : prompt ≠ "")
    (hsucc : env.outcome p.id = Outcome.success payload)
    (heq : p.originalPriority = some p.priority)
    (ht : p.lastFailureTime = some t) (h0 : 0 < t) (hft : p.lastFailureType = some ft)
    (hlazy : ¬((env.checkTime 0 : Int) - (t : Int) > (timeoutFor opts ft : Int))) :
    call env opts (p :: rest) prompt =
      (p :: rest, 1, Except.ok { payload := payload, provider := p.aiName, errors := none }) := by
  have hnorec : checkAndRecoverPriority p opts (env.checkTime 0) = p := by
    rw [(checkAndRecover_characterization p opts (env.checkTime 0) t ft p.priority).2 ht h0 hft heq]
    rw [if_neg hlazy]
  unfold call
  rw [if_neg hp]
  simp only [callLoop, hnorec, hsucc]
  simp [heq]

/-- Claim C10, witness: a provider with a fresh retryable failure at its
original priority succeeds and its failure fields survive in the registry. -/
theorem C10_success_keeps_failure_fields_witness :
    call envW optsA [pC10] "hi" =
      ([pC10], 1, Except.ok { payload := 7, provider := "groq", errors := none }) :=
  C10_success_keeps_failure_fields envW optsA pC10 [] "hi" 7 100 FailureType.retryable
    (by decide) rfl rfl rfl (by decide) rfl (by decide)

end FallbackSpec
